import Mathlib

/-!
Verification of the brightness reconciliation engine of system76-oled
(src/main.rs). The engine reads two sysfs backlight levels, derives an
integer brightness percentage, and applies it to the display by rewriting
the gamma ramp of the matching X output. This file shallowly embeds the
parts of src/main.rs that the verified claims are about:

* the `calulate_value` closure (lines 239-255) that produces each 16-bit
  gamma channel value: the Rust code computes in `f64`; the embedding
  models `f64` arithmetic by exact rational arithmetic over `ℚ`, which
  agrees with `f64` on all the concrete inputs used in counterexamples
  (they are exactly representable) and preserves the order and clamping
  facts proved here;
* `xrandr_output_brightness` (lines 216-280), embedded as the trace of
  effects it performs against an environment recording which X fetches
  succeed;
* the reactor loop of `main` (lines 376-525): its state, the loop body up
  to the poll call (re-read dirty sources, compute the fraction, run the
  apply loop), and the handlers for each poll outcome.

Rust `u64` arithmetic is modelled on `ℕ` with explicit wrap `% 2 ^ 64`
where the source can overflow (release-profile semantics); `u64` division
by zero, which panics in Rust in every profile, is modelled by `Except`.
-/

namespace System76Oled

/-- Modulus of the Rust `u64` values read from the sysfs files. -/
def U64 : ℕ := 2 ^ 64

/-- The sentinel `!0` (`u64::MAX`) stored in `current` to force a
reapplication (lines 382, 448, 488, 503, 518). -/
def sentinel : ℕ := U64 - 1

/-! ## Gamma curve calculator (src/main.rs lines 239-255) -/

/-- Rust saturating float-to-integer cast `as u16` applied to an exact
rational: negative values clamp to `0`, values above `65535` clamp to
`65535`, and the rest truncate. On nonnegative inputs truncation equals
the floor. -/
def f64_as_u16 (x : ℚ) : ℕ := (max 0 (min ⌊x⌋ 65535)).toNat

/-- The `calulate_value` closure (source line 239, typo kept), with `f64`
modelled over `ℚ`. The `gamma_opt` parameter of the closure is omitted
because every call site (lines 257-259) passes `None`, making the `powf`
branch dead code. `i` is the ramp index, `size` the gamma table size, and
`brightness_opt` the optional brightness scale: `value = i / (size - 1)`,
scaled if a brightness is given, clamped by `value.min(1.0)`, and converted
by `(.. * 65535.0) as u16`. -/
def calulate_value (i size : ℕ) (brightness_opt : Option ℚ) : ℕ :=
  let value : ℚ := (i : ℚ) / ((size : ℚ) - 1)
  let value : ℚ :=
    match brightness_opt with
    | some brightness => value * brightness
    | none => value
  f64_as_u16 (min value 1 * 65535)

/-! ## Brightness fraction (src/main.rs line 411) and applier argument
(lines 425-429) -/

/-- Runtime failure of the reactor loop body. Rust `u64` division by zero
panics in both debug and release profiles. -/
inductive RtPanic where
  | divideByZero
deriving Repr, DecidableEq

/-- Line 411, `let next = requested * 100 / max;` on `u64`: the
multiplication wraps at `2 ^ 64` (release profile), the division panics
when `max == 0`. -/
def computeNext (requested max : ℕ) : Except RtPanic ℕ :=
  if max = 0 then .error .divideByZero
  else .ok (requested * 100 % U64 / max)

/-- The brightness argument passed to `xrandr_output_brightness` by the
apply loop (lines 425-429): `None` exactly at 100 percent, otherwise
`Some(current as f64 / 100.0)`. -/
def brightnessArg (current : ℕ) : Option ℚ :=
  if current = 100 then none else some ((current : ℚ) / 100)

/-! ## Output matching (src/main.rs line 225) -/

/-- Line 225, `name.starts_with(output_name)`: the decoded output name is
matched against the configured target by prefix, not by equality. Rust
`str::starts_with` tests a byte prefix; on valid UTF-8 this coincides with
a character-sequence prefix (UTF-8 is a prefix code), which is what the
embedding tests on the underlying character lists. -/
def nameMatches (name output_name : String) : Bool :=
  output_name.data.isPrefixOf name.data

/-! ## Output locator and applier (src/main.rs lines 216-280) -/

/-- Model of one `XRRGetOutputInfo` result: the decoded UTF-8 name
(`none` when `str::from_utf8` fails, line 223) and the attached CRTC
(`none` when the `crtc` field is `0`, lines 68-77). -/
structure OutputInfoM where
  name : Option String
  crtc : Option ℕ
deriving Repr, DecidableEq

/-- Model of one entry of the screen-resources output list together with
the result of fetching its info (`none` models `XRRGetOutputInfo`
returning null, line 221). -/
structure OutputM where
  info : Option OutputInfoM
deriving Repr, DecidableEq

/-- Environment an application attempt runs against: the result of the
screen-resources fetch (line 217) and, per CRTC id, the size of its gamma
table when the gamma fetch succeeds (line 229). -/
structure XEnv where
  resources : Option (List OutputM)
  gamma : ℕ → Option ℕ

/-- Observable effect of one application attempt. -/
inductive XEffect where
  | errorLog (msg : String)
  | setGamma (crtc : ℕ) (table : List (ℕ × ℕ × ℕ))
  | flush
deriving Repr, DecidableEq

/-- The gamma table written for a CRTC of the given size (lines 232-260):
every index gets the same `calulate_value` result on all three channels. -/
def writtenTable (size : ℕ) (b : Option ℚ) : List (ℕ × ℕ × ℕ) :=
  (List.range size).map fun i =>
    (calulate_value i size b, calulate_value i size b, calulate_value i size b)

/-- Per-output body of the applier loop (lines 219-275): a failed info
fetch logs and moves on; an undecodable name or a missing CRTC silently
skips; a failed gamma fetch logs and moves on; otherwise the table is
rewritten and the display flushed. -/
def applyToOutput (env : XEnv) (output_name : String) (b : Option ℚ)
    (o : OutputM) : List XEffect :=
  match o.info with
  | none => [.errorLog "failed to get X output info"]
  | some info =>
    match info.name with
    | none => []
    | some name =>
      if nameMatches name output_name then
        match info.crtc with
        | none => []
        | some crtc =>
          match env.gamma crtc with
          | none => [.errorLog "failed to get X gamma info"]
          | some size => [.setGamma crtc (writtenTable size b), .flush]
      else []

/-- The function `xrandr_output_brightness` (lines 216-280) as the list of
effects it performs. The Rust function contains no panicking operation:
every fetch failure is logged and execution continues, so the embedding is
a total function into an effect trace. -/
def xrandr_output_brightness (env : XEnv) (output_name : String)
    (b : Option ℚ) : List XEffect :=
  match env.resources with
  | none => [.errorLog "failed to get X screen resources"]
  | some outputs => (outputs.map (applyToOutput env output_name b)).flatten

/-! ## Reactor state and loop body (src/main.rs lines 376-525) -/

/-- The mutable state of the reactor loop (lines 376-385):
`requestedUpdate` and `maxUpdate` are the dirty flags, `requested` and
`max` the last parsed levels, `current` the applied fraction (or
`sentinel`), `timeout` the poll timeout, and `timeoutTimes` the remaining
settle retries. -/
structure ReactorState where
  requestedUpdate : Bool
  maxUpdate : Bool
  requested : ℕ
  max : ℕ
  current : ℕ
  timeout : ℤ
  timeoutTimes : ℕ
deriving Repr, DecidableEq

/-- The state on entry to the loop (lines 376-385): both sources dirty,
levels zero until first read, `current = !0`, infinite poll timeout. -/
def initState : ReactorState :=
  { requestedUpdate := true, maxUpdate := true, requested := 0, max := 0,
    current := sentinel, timeout := -1, timeoutTimes := 0 }

/-- Lines 387-432, one pass of the loop body up to the poll call: re-read
a source when its dirty flag is set (`requestedVal` and `maxVal` stand for
the freshly parsed file contents), compute `next` (line 411, may panic),
then run the `while current != next` apply loop, which either does nothing
or invokes the applier exactly once with `brightnessArg next`. Returns the
new state and the list of applier invocations. -/
def loopBody (requestedVal maxVal : ℕ) (s : ReactorState) :
    Except RtPanic (ReactorState × List (Option ℚ)) :=
  let requested := if s.requestedUpdate then requestedVal else s.requested
  let max := if s.maxUpdate then maxVal else s.max
  match computeNext requested max with
  | .error e => .error e
  | .ok next =>
    let s1 : ReactorState :=
      { s with requestedUpdate := false, maxUpdate := false,
               requested := requested, max := max }
    if s1.current = next then .ok (s1, [])
    else .ok ({ s1 with current := next }, [brightnessArg next])

/-- Lines 446-453, poll returned zero events: force the sentinel; when the
retry budget is spent restore the infinite timeout, otherwise decrement
the budget. -/
def onTimeout (s : ReactorState) : ReactorState :=
  let s1 : ReactorState := { s with current := sentinel }
  if s1.timeoutTimes = 0 then { s1 with timeout := -1 }
  else { s1 with timeoutTimes := s1.timeoutTimes - 1 }

/-- Lines 495-523, a D-Bus watch (system or session bus) reported an item:
force the sentinel and open the settle window of 10 retries at timeout
100. -/
def onDbus (s : ReactorState) : ReactorState :=
  { s with current := sentinel, timeout := 100, timeoutTimes := 10 }

/-- Lines 460-468, inotify events: mark the sources that fired dirty. -/
def onInotify (reqHit maxHit : Bool) (s : ReactorState) : ReactorState :=
  { s with requestedUpdate := s.requestedUpdate || reqHit,
           maxUpdate := s.maxUpdate || maxHit }

/-- Lines 471-493, X events drained: any RRNotify event forces the
sentinel. -/
def onDisplayNotify (rrNotify : Bool) (s : ReactorState) : ReactorState :=
  if rrNotify then { s with current := sentinel } else s

/-- One full reactor iteration whose poll times out: the loop body runs,
the poll at the current timeout returns zero events, and the timeout
handler fires. Records the number of applier invocations of the iteration
and the timeout the poll used. -/
def timeoutIter (requestedVal maxVal : ℕ) (s : ReactorState) :
    Except RtPanic (ReactorState × ℕ × ℤ) :=
  match loopBody requestedVal maxVal s with
  | .error e => .error e
  | .ok (s1, calls) => .ok (onTimeout s1, calls.length, s1.timeout)

/-- Trace of `n` consecutive timeout iterations: final state plus, per
iteration, the applier invocation count and the poll timeout used. -/
def settleTrace (requestedVal maxVal : ℕ) :
    ℕ → ReactorState → Except RtPanic (ReactorState × List (ℕ × ℤ))
  | 0, s => .ok (s, [])
  | n + 1, s =>
    match timeoutIter requestedVal maxVal s with
    | .error e => .error e
    | .ok (s1, c, t) =>
      match settleTrace requestedVal maxVal n s1 with
      | .error e => .error e
      | .ok (s2, log) => .ok (s2, (c, t) :: log)

/-! ## Helper lemmas about the saturating cast -/

theorem f64_as_u16_mono {x y : ℚ} (h : x ≤ y) : f64_as_u16 x ≤ f64_as_u16 y := by
  unfold f64_as_u16
  exact Int.toNat_le_toNat (max_le_max le_rfl (min_le_min (Int.floor_le_floor h) le_rfl))

theorem f64_as_u16_eq_zero {x : ℚ} (h : x ≤ 0) : f64_as_u16 x = 0 := by
  unfold f64_as_u16
  have h1 : ⌊x⌋ ≤ 0 := Int.floor_nonpos h
  have h2 : min ⌊x⌋ 65535 ≤ 0 := le_trans (min_le_left _ _) h1
  rw [max_eq_left h2]
  rfl

theorem f64_as_u16_le_65535 (x : ℚ) : f64_as_u16 x ≤ 65535 := by
  unfold f64_as_u16
  have h1 : max 0 (min ⌊x⌋ 65535) ≤ 65535 :=
    max_le (by norm_num) (min_le_right _ _)
  omega

/-! ## C3: identity ramp -/

/-- C3, counterexample: the claim states that with no brightness scale the
calculator returns `round(i/(N-1) * 65535)`. At `N = 3`, `i = 1` the exact
intermediate value is `32767.5` (exactly representable in `f64`, so the
rational model agrees with the Rust computation): the truncating `as u16`
conversion yields `32767`, while rounding would yield `32768`. -/
theorem C3_counterexample :
    calulate_value 1 3 none = 32767 ∧
    round ((1 : ℚ) / ((3 : ℚ) - 1) * 65535) = 32768 ∧
    (calulate_value 1 3 none : ℤ) ≠ round ((1 : ℚ) / ((3 : ℚ) - 1) * 65535) := by
  have h1 : calulate_value 1 3 none = 32767 := by
    simp only [calulate_value, f64_as_u16]
    norm_num
    rfl
  have h2 : round ((1 : ℚ) / ((3 : ℚ) - 1) * 65535) = 32768 := by
    norm_num [round_eq]
  refine ⟨h1, h2, ?_⟩
  rw [h1, h2]
  norm_num

/-- C3, amended: for every table size `N > 1` and index `i < N`, the
calculator with no brightness scale returns `⌊i/(N-1) * 65535⌋` (floor,
i.e. truncation, not rounding), and this identity ramp is monotonically
non-decreasing in the index. -/
theorem C3_amended (N i j : ℕ) (hN : 1 < N) (hi : i < N) (hj : j < N)
    (hij : i ≤ j) :
    (calulate_value i N none : ℤ) = ⌊(i : ℚ) / ((N : ℚ) - 1) * 65535⌋ ∧
    calulate_value i N none ≤ calulate_value j N none := by
  have hd : (0 : ℚ) < (N : ℚ) - 1 := by
    have : (2 : ℚ) ≤ (N : ℚ) := by exact_mod_cast hN
    linarith
  have hval : ∀ k : ℕ, k < N →
      calulate_value k N none = (⌊(k : ℚ) / ((N : ℚ) - 1) * 65535⌋).toNat := by
    intro k hk
    have hk1 : (k : ℚ) / ((N : ℚ) - 1) ≤ 1 := by
      rw [div_le_one hd]
      have : (k : ℚ) ≤ (N : ℚ) - 1 := by
        have : (k : ℚ) + 1 ≤ (N : ℚ) := by exact_mod_cast hk
        linarith
      exact this
    have hk0 : (0 : ℚ) ≤ (k : ℚ) / ((N : ℚ) - 1) := by positivity
    simp only [calulate_value, f64_as_u16]
    rw [min_eq_left hk1]
    have hfl0 : (0 : ℤ) ≤ ⌊(k : ℚ) / ((N : ℚ) - 1) * 65535⌋ :=
      Int.floor_nonneg.mpr (by positivity)
    have hfl65535 : ⌊(k : ℚ) / ((N : ℚ) - 1) * 65535⌋ ≤ 65535 := by
      have h655 : (k : ℚ) / ((N : ℚ) - 1) * 65535 ≤ 65535 := by
        have := mul_le_mul_of_nonneg_right hk1 (by norm_num : (0 : ℚ) ≤ 65535)
        linarith
      calc ⌊(k : ℚ) / ((N : ℚ) - 1) * 65535⌋ ≤ ⌊(65535 : ℚ)⌋ :=
            Int.floor_le_floor h655
        _ = 65535 := by norm_num
    rw [min_eq_left hfl65535, max_eq_right hfl0]
  constructor
  · rw [hval i hi]
    have : (0 : ℤ) ≤ ⌊(i : ℚ) / ((N : ℚ) - 1) * 65535⌋ :=
      Int.floor_nonneg.mpr (by positivity)
    omega
  · rw [hval i hi, hval j hj]
    have hcast : (i : ℚ) ≤ (j : ℚ) := by exact_mod_cast hij
    have hmono : (i : ℚ) / ((N : ℚ) - 1) * 65535 ≤ (j : ℚ) / ((N : ℚ) - 1) * 65535 :=
      mul_le_mul_of_nonneg_right ((div_le_div_iff_of_pos_right hd).mpr hcast)
        (by norm_num)
    exact Int.toNat_le_toNat (Int.floor_le_floor hmono)

/-- C3, witness: the amended theorem applied at `N = 256`, `i = 100`,
`j = 200`. -/
theorem C3_amended_witness :
    (1 < 256 ∧ 100 < 256 ∧ 200 < 256 ∧ 100 ≤ 200) ∧
    (calulate_value 100 256 none : ℤ) = ⌊(100 : ℚ) / ((256 : ℚ) - 1) * 65535⌋ ∧
    calulate_value 100 256 none ≤ calulate_value 200 256 none :=
  ⟨by decide, C3_amended 256 100 200 (by decide) (by decide) (by decide)
    (by decide)⟩

/-! ## C5: scaling never increases a channel value -/

/-- C5: for every table size `N`, index `i`, and brightness scale
`0 < s ≤ 1`, the calculator output with scale `s` is at most its output
with no scale. The scale multiplies the nonnegative ramp position by a
factor of at most one before the clamp and the monotone conversion. -/
theorem C5_scale_never_increases (N i : ℕ) (s : ℚ) (hs0 : 0 < s)
    (hs1 : s ≤ 1) :
    calulate_value i N (some s) ≤ calulate_value i N none := by
  simp only [calulate_value]
  set v : ℚ := (i : ℚ) / ((N : ℚ) - 1) with hv
  rcases le_total v 0 with hneg | hpos
  · have hvs : v * s ≤ 0 := mul_nonpos_iff.mpr (Or.inr ⟨hneg, hs0.le⟩)
    have hmin : min (v * s) 1 ≤ 0 := le_trans (min_le_left _ _) hvs
    have : min (v * s) 1 * 65535 ≤ 0 :=
      mul_nonpos_iff.mpr (Or.inr ⟨hmin, by norm_num⟩)
    rw [f64_as_u16_eq_zero this]
    exact Nat.zero_le _
  · have hvs : v * s ≤ v := mul_le_of_le_one_right hpos hs1
    exact f64_as_u16_mono
      (mul_le_mul_of_nonneg_right (min_le_min hvs le_rfl) (by norm_num))

/-- C5, witness: the scaled value at the middle of a 256-entry table with
scale one half is at most the unscaled value. -/
theorem C5_scale_never_increases_witness :
    (0 < (1 : ℚ) / 2 ∧ (1 : ℚ) / 2 ≤ 1) ∧
    calulate_value 128 256 (some ((1 : ℚ) / 2)) ≤ calulate_value 128 256 none :=
  ⟨⟨by norm_num, by norm_num⟩,
    C5_scale_never_increases 256 128 ((1 : ℚ) / 2) (by norm_num) (by norm_num)⟩

/-! ## C10: clamping keeps every channel value in 16-bit range -/

/-- C10: for every table size `N > 1`, index `i < N`, and nonnegative
brightness scale `s` (scales above one arise when the requested level
exceeds the maximum), the intermediate value is clamped to at most `1`
before the conversion, the converted integer lies in `[0, 65535]` before
any saturation, and the channel value written is at most `65535`. -/
theorem C10_clamp_bounds (N i : ℕ) (s : ℚ) (hN : 1 < N) (_hi : i < N)
    (hs : 0 ≤ s) :
    min ((i : ℚ) / ((N : ℚ) - 1) * s) 1 ≤ 1 ∧
    (0 : ℤ) ≤ ⌊min ((i : ℚ) / ((N : ℚ) - 1) * s) 1 * 65535⌋ ∧
    ⌊min ((i : ℚ) / ((N : ℚ) - 1) * s) 1 * 65535⌋ ≤ 65535 ∧
    calulate_value i N (some s) ≤ 65535 := by
  have hd : (0 : ℚ) < (N : ℚ) - 1 := by
    have : (2 : ℚ) ≤ (N : ℚ) := by exact_mod_cast hN
    linarith
  have hv0 : (0 : ℚ) ≤ (i : ℚ) / ((N : ℚ) - 1) := by positivity
  have hvs0 : (0 : ℚ) ≤ (i : ℚ) / ((N : ℚ) - 1) * s := mul_nonneg hv0 hs
  refine ⟨min_le_right _ _, ?_, ?_, f64_as_u16_le_65535 _⟩
  · exact Int.floor_nonneg.mpr
      (mul_nonneg (le_min hvs0 (by norm_num)) (by norm_num))
  · have hle : min ((i : ℚ) / ((N : ℚ) - 1) * s) 1 * 65535 ≤ 65535 := by
      have := mul_le_mul_of_nonneg_right
        (min_le_right ((i : ℚ) / ((N : ℚ) - 1) * s) 1)
        (by norm_num : (0 : ℚ) ≤ 65535)
      linarith
    calc ⌊min ((i : ℚ) / ((N : ℚ) - 1) * s) 1 * 65535⌋ ≤ ⌊(65535 : ℚ)⌋ :=
          Int.floor_le_floor hle
      _ = 65535 := by norm_num

/-- C10, witness: the bounds applied at `N = 256`, `i = 255`, with the
above-one scale `s = 3/2`. -/
theorem C10_clamp_bounds_witness :
    (1 < 256 ∧ 255 < 256 ∧ (0 : ℚ) ≤ 3 / 2) ∧
    (min ((255 : ℚ) / ((256 : ℚ) - 1) * (3 / 2)) 1 ≤ 1 ∧
     (0 : ℤ) ≤ ⌊min ((255 : ℚ) / ((256 : ℚ) - 1) * (3 / 2)) 1 * 65535⌋ ∧
     ⌊min ((255 : ℚ) / ((256 : ℚ) - 1) * (3 / 2)) 1 * 65535⌋ ≤ 65535 ∧
     calulate_value 255 256 (some ((3 : ℚ) / 2)) ≤ 65535) :=
  ⟨⟨by decide, by decide, by norm_num⟩,
    C10_clamp_bounds 256 255 ((3 : ℚ) / 2) (by decide) (by decide) (by norm_num)⟩

/-! ## C1: zero maximum level -/

/-- C1, counterexample: the claim states that with a zero maximum the
engine terminates before entering the reactor loop and the fraction
computation is never executed with a zero divisor. The source has no such
guard: startup (lines 283-385) never reads the maximum level, the loop is
entered with both dirty flags set, and the first loop-body pass reads
`max = 0` and then executes `requested * 100 / max` at line 411, whose
zero divisor is what aborts the process (the Rust division-by-zero
panic). In the model the first iteration from the post-startup state with
file contents `requested = 255`, `max = 0` reaches the division and
produces the divide-by-zero outcome instead of stopping earlier. -/
theorem C1_counterexample :
    loopBody 255 0 initState = .error RtPanic.divideByZero := rfl

/-- C1, amended: with a zero maximum level, the engine terminates fatally,
but only on the first reactor-loop iteration that recomputes the fraction,
through the division-by-zero panic of the fraction computation itself
(inside the loop, after it is entered); no applier invocation happens on
that iteration. -/
theorem C1_amended (requestedVal : ℕ) (s : ReactorState)
    (h : s.maxUpdate = true) :
    loopBody requestedVal 0 s = .error RtPanic.divideByZero := by
  simp [loopBody, computeNext, h]

/-- C1, witness: the amended theorem applied at the post-startup state
with file contents `requested = 42`, `max = 0`. -/
theorem C1_amended_witness :
    initState.maxUpdate = true ∧
    loopBody 42 0 initState = .error RtPanic.divideByZero :=
  ⟨rfl, C1_amended 42 initState rfl⟩

/-! ## C4: fraction examples and the identity-ramp path at 100 percent -/

/-- C4: `requested = 128, max = 255` yields the fraction `50` and
`requested = 255, max = 255` yields `100`; when the fraction is `100` the
apply loop passes `None` as the brightness argument (lines 425-429), so a
whole loop-body pass from the post-startup state with both sources reading
`255` invokes the applier exactly once with no brightness scale. -/
theorem C4_fraction_and_identity_path :
    computeNext 128 255 = .ok 50 ∧
    computeNext 255 255 = .ok 100 ∧
    brightnessArg 100 = none ∧
    loopBody 255 255 initState =
      .ok (⟨false, false, 255, 255, 100, -1, 0⟩, [none]) :=
  ⟨rfl, rfl, rfl, rfl⟩

/-! ## C6: matching fraction skips the apply loop -/

/-- C6: in a reactor iteration whose state is clean (no dirty flags) and
whose applied fraction already equals the fraction the body computes, the
loop body returns the state unchanged and performs zero applier
invocations: the `while current != next` body (and with it every gamma
fetch, write, and flush, all of which happen only inside the applier) is
skipped. Stated over every requested level `R`, maximum `M + 1`, poll
timeout and retry budget. -/
theorem C6_idempotent_skip (rv mv R M : ℕ) (tmo : ℤ) (tt : ℕ) :
    loopBody rv mv ⟨false, false, R, M + 1, R * 100 % U64 / (M + 1), tmo, tt⟩ =
      .ok (⟨false, false, R, M + 1, R * 100 % U64 / (M + 1), tmo, tt⟩, []) := by
  simp [loopBody, computeNext]

/-! ## C8: range of the derived fraction -/

/-- C8, counterexample: the claim states the derived fraction lies in
`[0, 100]` for every `requested` and `maximum > 0`. The code has no clamp:
`requested = 2, max = 1` derives `200`. -/
theorem C8_counterexample :
    computeNext 2 1 = .ok 200 ∧ ¬ (200 : ℕ) ≤ 100 :=
  ⟨rfl, by decide⟩

/-- C8, amended: for every `requested` and `maximum` with `maximum ≠ 0`,
`requested ≤ maximum`, and `requested * 100` below the `u64` modulus (so
the multiplication does not wrap), the derived fraction equals
`⌊requested * 100 / maximum⌋` and lies in `[0, 100]`. Without
`requested ≤ maximum` the fraction exceeds `100`, as the counterexample
shows. -/
theorem C8_amended (r m : ℕ) (hm : m ≠ 0) (hrm : r ≤ m)
    (hov : r * 100 < U64) :
    computeNext r m = .ok (r * 100 / m) ∧ r * 100 / m ≤ 100 := by
  constructor
  · simp [computeNext, hm, Nat.mod_eq_of_lt hov]
  · calc r * 100 / m ≤ m * 100 / m :=
        Nat.div_le_div_right (Nat.mul_le_mul_right _ hrm)
      _ = 100 := Nat.mul_div_cancel_left 100 (Nat.pos_of_ne_zero hm)

/-- C8, witness: the amended theorem applied at `requested = 128`,
`maximum = 255`. -/
theorem C8_amended_witness :
    (255 ≠ 0 ∧ 128 ≤ 255 ∧ 128 * 100 < U64) ∧
    computeNext 128 255 = .ok (128 * 100 / 255) ∧ 128 * 100 / 255 ≤ 100 :=
  ⟨⟨by decide, by decide, by decide⟩,
    C8_amended 128 255 (by decide) (by decide) (by decide)⟩

/-! ## C2: settle policy after a notification-bus event -/

/-- Shape of the reactor state inside the settle window: clean flags,
sentinel applied fraction, short poll timeout `100`, and `n` remaining
retries. `onDbus` produces exactly this shape with `n = 10`. -/
def settleState (R M n : ℕ) : ReactorState :=
  { requestedUpdate := false, maxUpdate := false, requested := R, max := M,
    current := sentinel, timeout := 100, timeoutTimes := n }

/-- Shape of the reactor state right after the settle window closes:
sentinel applied fraction, infinite poll timeout, exhausted retry
budget. -/
def steadyState (R M : ℕ) : ReactorState :=
  { requestedUpdate := false, maxUpdate := false, requested := R, max := M,
    current := sentinel, timeout := -1, timeoutTimes := 0 }

/-- The computed fraction can never collide with the sentinel `!0`: for
`max = 1` the fraction is `requested * 100 mod 2 ^ 64`, which is divisible
by four while the sentinel is `3 mod 4`; for `max ≥ 2` the fraction is at
most `(2 ^ 64 - 1) / 2`. Hence a sentinel-carrying state always re-runs
the apply loop. -/
theorem next_ne_sentinel (r m : ℕ) (hm : m ≠ 0) :
    r * 100 % U64 / m ≠ sentinel := by
  rcases Nat.lt_or_ge m 2 with h1 | h2
  · have hm1 : m = 1 := by omega
    subst hm1
    rw [Nat.div_one]
    intro hEq
    have h4 : r * 100 % U64 % 4 = r * 100 % 4 :=
      Nat.mod_mod_of_dvd _ (by norm_num [U64])
    have h0 : r * 100 % 4 = 0 := by omega
    rw [hEq] at h4
    have : sentinel % 4 = 3 := by norm_num [sentinel, U64]
    omega
  · intro hEq
    have hlt : r * 100 % U64 < U64 := Nat.mod_lt _ (by norm_num [U64])
    have hhalf : r * 100 % U64 / m ≤ r * 100 % U64 / 2 :=
      Nat.div_le_div_left h2 (by norm_num)
    have hbound : r * 100 % U64 / 2 ≤ (U64 - 1) / 2 :=
      Nat.div_le_div_right (by omega)
    have : (U64 - 1) / 2 < sentinel := by norm_num [U64, sentinel]
    omega

/-- While retries remain, a timed-out iteration applies the brightness
once at poll timeout `100`, re-arms the sentinel, and decrements the
retry budget. -/
theorem timeoutIter_settle (rv mv R M n : ℕ) (hM : M ≠ 0) :
    timeoutIter rv mv (settleState R M (n + 1)) =
      .ok (settleState R M n, 1, 100) := by
  have hne := next_ne_sentinel R M hM
  simp [timeoutIter, loopBody, computeNext, settleState, onTimeout, hM,
    Ne.symm hne]

/-- When the retry budget is exhausted, the timed-out iteration still
applies once at poll timeout `100`, then restores the infinite timeout. -/
theorem timeoutIter_settle_last (rv mv R M : ℕ) (hM : M ≠ 0) :
    timeoutIter rv mv (settleState R M 0) = .ok (steadyState R M, 1, 100) := by
  have hne := next_ne_sentinel R M hM
  simp [timeoutIter, loopBody, computeNext, settleState, steadyState,
    onTimeout, hM, Ne.symm hne]

/-- From a settle state with `n` retries left, `n + 1` consecutive
timed-out iterations each apply once at poll timeout `100` and end in the
steady state. -/
theorem settleTrace_settle (rv mv R M n : ℕ) (hM : M ≠ 0) :
    settleTrace rv mv (n + 1) (settleState R M n) =
      .ok (steadyState R M, List.replicate (n + 1) (1, 100)) := by
  induction n with
  | zero =>
    simp [settleTrace, timeoutIter_settle_last rv mv R M hM]
  | succ k ih =>
    rw [settleTrace, timeoutIter_settle rv mv R M k hM]
    simp [ih, List.replicate_succ]

/-- C2: after a notification-bus event from any clean state (maximum level
`M + 1`, so nonzero), the trace of the following iterations with no
further events shows: the sentinel-forced reapply happens on the very
next loop iteration (first trace entry: one applier invocation, poll
timeout `100`); including it, eleven iterations run with the short poll
timeout `100`, of which the last ten are the configured number of
timeout-forced reapplies in the settle window; after the eleventh timeout
the poll timeout is back at `-1` with the retry budget exhausted. The
final conjunct records that the sentinel left by that last timeout still
triggers one more reapplication, which executes with the poll timeout
already restored to infinite steady state. -/
theorem C2_settle_policy (R M c rv mv : ℕ) (tmo : ℤ) (tt : ℕ) :
    settleTrace rv mv 11 (onDbus ⟨false, false, R, M + 1, c, tmo, tt⟩) =
      .ok (steadyState R (M + 1), List.replicate 11 (1, 100)) ∧
    loopBody rv mv (steadyState R (M + 1)) =
      .ok ({ steadyState R (M + 1) with current := R * 100 % U64 / (M + 1) },
           [brightnessArg (R * 100 % U64 / (M + 1))]) := by
  have hM : M + 1 ≠ 0 := Nat.succ_ne_zero M
  constructor
  · have h0 : onDbus ⟨false, false, R, M + 1, c, tmo, tt⟩ =
        settleState R (M + 1) 10 := rfl
    rw [h0]
    exact settleTrace_settle rv mv R (M + 1) 10 hM
  · have hne := next_ne_sentinel R (M + 1) hM
    simp [loopBody, computeNext, steadyState, hM, Ne.symm hne]

/-! ## C7: output matching is a name-prefix test -/

/-- Every character list is a Boolean prefix of itself followed by any
suffix. -/
theorem isPrefixOf_append_self (l r : List Char) :
    l.isPrefixOf (l ++ r) = true := by
  induction l with
  | nil => simp
  | cons a as ih => simp [List.isPrefixOf_cons₂, ih]

/-- C7: output matching is a name-prefix test, not exact equality: every
output whose name is the configured target followed by any suffix
matches; in particular both an output named literally `eDP-1` and one
named `eDP-1-2` match the configured target `eDP-1`, although the two
names are not equal. -/
theorem C7_prefix_matching :
    (∀ target suffix : String, nameMatches (target ++ suffix) target = true) ∧
    nameMatches "eDP-1" "eDP-1" = true ∧
    nameMatches "eDP-1-2" "eDP-1" = true ∧
    ("eDP-1-2" == "eDP-1") = false := by
  refine ⟨?_, by decide, by decide, by decide⟩
  intro target suffix
  unfold nameMatches
  rw [String.data_append]
  exact isPrefixOf_append_self target.data suffix.data

/-! ## C9: display fetch failures are non-fatal -/

/-- C9: every failure to fetch screen resources, output info, or a gamma
table during an application attempt logs an error and skips that
application, with no gamma write and no flush for the failed fetch. The
embedding of `xrandr_output_brightness` is a total function into an
effect trace because the Rust function contains no panicking operation
and mutates nothing outside the failed fetch: non-unwinding normal return
holds by construction for every environment. The three conjuncts cover a
failed screen-resources fetch (whole attempt reduced to one error log), a
failed output-info fetch (that output reduced to one error log), and a
failed gamma fetch on the matched output (that output reduced to one
error log). -/
theorem C9_transient_failures (output_name : String) (b : Option ℚ)
    (env : XEnv) :
    (env.resources = none →
      xrandr_output_brightness env output_name b =
        [.errorLog "failed to get X screen resources"]) ∧
    (∀ o : OutputM, o.info = none →
      applyToOutput env output_name b o =
        [.errorLog "failed to get X output info"]) ∧
    (∀ (o : OutputM) (info : OutputInfoM) (nm : String) (crtc : ℕ),
      o.info = some info → info.name = some nm →
      nameMatches nm output_name = true → info.crtc = some crtc →
      env.gamma crtc = none →
      applyToOutput env output_name b o =
        [.errorLog "failed to get X gamma info"]) := by
  refine ⟨?_, ?_, ?_⟩
  · intro h
    simp [xrandr_output_brightness, h]
  · intro o h
    simp [applyToOutput, h]
  · intro o info nm crtc h1 h2 h3 h4 h5
    simp [applyToOutput, h1, h2, h3, h4, h5]

/-- C9, witness: an environment whose screen-resources fetch fails makes
the application attempt produce exactly the one error log. -/
theorem C9_transient_failures_witness :
    xrandr_output_brightness ⟨none, fun _ => none⟩ "eDP-1" none =
      [.errorLog "failed to get X screen resources"] :=
  (C9_transient_failures "eDP-1" none ⟨none, fun _ => none⟩).1 rfl

end System76Oled
